import Mathlib

/-
Verification of the canary rollout controller (canaryconfigmgr) against its
specification.  The definitions below are a shallow embedding of the Go
sources: the request tracker (requestTracker), the per-tick body of the
rollout loop (processCanaryConfig), the event wiring of the controller
(initCanaryConfigController / addCanaryConfig), and the Prometheus metrics
adapter (GetFunctionFailurePercentage).  Functions whose bodies are absent
from the source tree (reset, calculatePercentageFailure, rollback) are
modelled from the specification and marked as such.
-/

namespace Canary

abbrev TriggerRef := String

/-- Embedding of RequestCounter (part_000 lines 15-18): two Go int fields. -/
structure RequestCounter where
  TotalRequests : Int
  FailedRequests : Int
deriving DecidableEq

/-- The tracker's Counter map (part_000 line 12): trigger reference to counter;
a Go map read yields nil (none) for a missing key. -/
abbrev TrackerMap := TriggerRef → Option RequestCounter

/-- Embedding of makeRequestTracker (part_000 lines 21-26): an empty map. -/
def makeRequestTracker : TrackerMap := fun _ => none

/-- Embedding of RequestTracker.set (part_000 lines 30-44).  When the key is
missing the source builds a fresh local RequestCounter and increments it, but
never writes it back into the map (there is no map assignment in the body), so
the map is left unchanged on that path. -/
def RequestTracker.set (m : TrackerMap) (triggerRef : TriggerRef) (failedReq : Bool) : TrackerMap :=
  match m triggerRef with
  | none => m
  | some value =>
      let value1 := if failedReq then { value with FailedRequests := value.FailedRequests + 1 } else value
      let value2 := { value1 with TotalRequests := value1.TotalRequests + 1 }
      fun t => if t = triggerRef then some value2 else m t

/-- Embedding of RequestTracker.get (part_000 lines 46-51): a plain map read. -/
def RequestTracker.get (m : TrackerMap) (triggerRef : TriggerRef) : Option RequestCounter :=
  m triggerRef

/-- Modelled from the spec: the body of RequestTracker.reset, called at
canaryConfigMgr.go line 156, is not in the source tree; section 4.1 of the
spec says it atomically zeroes both counters for that trigger. -/
def RequestTracker.reset (m : TrackerMap) (triggerRef : TriggerRef) : TrackerMap :=
  fun t => if t = triggerRef then some ⟨0, 0⟩ else m t

/-- Modelled from the spec: the body of calculatePercentageFailure, called at
canaryConfigMgr.go line 124, is not in the source tree; section 4.2 of the
spec says percentage = failed / total * 100. -/
def calculatePercentageFailure (rc : RequestCounter) : ℚ :=
  ((rc.FailedRequests : ℚ) / (rc.TotalRequests : ℚ)) * 100

/-- The fields of crd.CanaryConfig's Spec used by the rollout loop
(canaryConfigMgr.go lines 115-159). -/
structure CanaryConfigSpec where
  Trigger : TriggerRef
  FunctionN : String
  FunctionNminus1 : String
  WeightIncrement : Int
  FailureThreshold : Int

/-- The part of an HTTPTrigger the loop reads and writes: its function-weight
map.  A Go map read of a missing key yields the zero value, so the map is
embedded as a total function defaulting to 0. -/
structure HTTPTrigger where
  FunctionWeights : String → Int

inductive ApiError
  | notFound
  | conflict
  | other
deriving DecidableEq

/-- The environment a single tick runs in: the outcome of the HTTPTriggers
Get call (canaryConfigMgr.go line 134) and of the Update call (line 149). -/
structure TickEnv where
  getResult : Except ApiError HTTPTrigger
  updateResult : Option ApiError

/-- A single Go map write m[k] += d (reads the current value, zero if the key
is missing, and stores the sum). -/
def mapAddAt (m : String → Int) (k : String) (d : Int) : String → Int :=
  fun j => if j = k then m k + d else m j

/-- The two consecutive map writes at canaryConfigMgr.go lines 143-144:
functionWeights[FunctionN] += WeightIncrement followed by
functionWeights[FunctionNminus1] -= WeightIncrement. -/
def applyWeightIncrement (cfg : CanaryConfigSpec) (fw : String → Int) : String → Int :=
  mapAddAt (mapAddAt fw cfg.FunctionN cfg.WeightIncrement) cfg.FunctionNminus1 (-cfg.WeightIncrement)

/-- Modelled from the spec: the body of rollback, called at
canaryConfigMgr.go line 128, is not in the source tree; section 4.3 step 2 of
the spec says it reverts the candidate's weight to 0 and the incumbent's to
100. -/
def rollback (cfg : CanaryConfigSpec) (fw : String → Int) : String → Int :=
  fun k => if k = cfg.FunctionN then 0 else if k = cfg.FunctionNminus1 then 100 else fw k

/-- The observable outcome of one call to processCanaryConfig: the tracker
map afterwards, the weight map passed to Update if Update was called, whether
close(quit) ran, and whether rollback() was called. -/
structure TickResult where
  tracker : TrackerMap
  updateCall : Option (String → Int)
  quitClosed : Bool
  rollbackCalled : Bool

/-- Embedding of processCanaryConfig (canaryConfigMgr.go lines 113-162).
Control flow mirrors the source: return on nil counter or zero total; call
rollback() and close(quit) when the failure percentage is strictly above the
threshold (line 126 uses a strict comparison); return on any Get error (line
135 does not distinguish NotFound); apply the two weight writes; return on
Update error without resetting; otherwise reset the counters and close(quit)
when the candidate's new weight is at least 100. -/
def processCanaryConfig (tracker : TrackerMap) (cfg : CanaryConfigSpec) (env : TickEnv) : TickResult :=
  match RequestTracker.get tracker cfg.Trigger with
  | none => ⟨tracker, none, false, false⟩
  | some requestCounter =>
    if requestCounter.TotalRequests = 0 then ⟨tracker, none, false, false⟩
    else
      if calculatePercentageFailure requestCounter > (cfg.FailureThreshold : ℚ) then
        ⟨tracker, none, true, true⟩
      else
        match env.getResult with
        | Except.error _ => ⟨tracker, none, false, false⟩
        | Except.ok t =>
          let functionWeights := applyWeightIncrement cfg t.FunctionWeights
          match env.updateResult with
          | some _ => ⟨tracker, some functionWeights, false, false⟩
          | none =>
            let tracker2 := RequestTracker.reset tracker cfg.Trigger
            if functionWeights cfg.FunctionN ≥ 100 then ⟨tracker2, some functionWeights, true, false⟩
            else ⟨tracker2, some functionWeights, false, false⟩

/-- The state of one addCanaryConfig loop (canaryConfigMgr.go lines 90-110):
the tracker it shares and whether its quit channel has been closed. -/
structure LoopState where
  tracker : TrackerMap
  stopped : Bool

/-- One iteration of the addCanaryConfig select loop: once quit is closed the
loop has returned and a tick does nothing; otherwise the tick body runs. -/
def loopStep (cfg : CanaryConfigSpec) (st : LoopState) (env : TickEnv) : LoopState × Option (String → Int) :=
  if st.stopped then (st, none)
  else
    let r := processCanaryConfig st.tracker cfg env
    (⟨r.tracker, r.quitClosed⟩, r.updateCall)

/-- The weight maps passed to Update over a sequence of ticks of one loop. -/
def loopUpdates (cfg : CanaryConfigSpec) : LoopState → List TickEnv → List (String → Int)
  | _, [] => []
  | st, env :: rest =>
      match loopStep cfg st env with
      | (st2, none) => loopUpdates cfg st2 rest
      | (st2, some u) => u :: loopUpdates cfg st2 rest

/-- Embedding of the AddFunc handler (canaryConfigMgr.go lines 69-72): every
Added event unconditionally spawns one addCanaryConfig loop goroutine; there
is no registry and no check for an existing loop, so the new loop is simply
added to the set of active loops (identified here by configuration name). -/
def addCanaryConfigEvent (loops : List String) (cfgName : String) : List String :=
  cfgName :: loops

/-- The active loops after the controller handles a sequence of Added events. -/
def processAddEvents (loops : List String) (events : List String) : List String :=
  events.foldl addCanaryConfigEvent loops

inductive PromError
  | queryFailed
deriving DecidableEq

/-- The value shapes the Prometheus query can return
(prometheusClient.go lines 52-64): a scalar, a vector, or anything else. -/
inductive PromValue
  | scalar (v : ℚ)
  | vector (elems : List (String × ℚ))
  | otherType
deriving DecidableEq

inductive LogEvent
  | errorQuerying
  | elemLogged (labels : String) (value : ℚ)
  | typeUnrecognized
deriving DecidableEq

/-- How a call to GetFunctionFailurePercentage ends: the Go function declares
no return values, so the caller observes only normal completion or a runtime
fault, plus whatever was logged. -/
inductive PromOutcome
  | panicked (logs : List LogEvent)
  | finished (logs : List LogEvent)
deriving DecidableEq

/-- Embedding of GetFunctionFailurePercentage (prometheusClient.go lines
37-64).  On a query error the source logs the error (line 41) and then falls
through to the switch, calling val.Type() on the absent value (line 53), a
nil dereference; on a scalar it does nothing further, on a vector it logs
each element, otherwise it logs an unrecognized type.  No branch returns a
value or an error: the function's signature has no return values. -/
def GetFunctionFailurePercentage (queryResult : Except PromError PromValue) : PromOutcome :=
  match queryResult with
  | Except.error _ => PromOutcome.panicked [LogEvent.errorQuerying]
  | Except.ok (PromValue.scalar _) => PromOutcome.finished []
  | Except.ok (PromValue.vector elems) =>
      PromOutcome.finished (elems.map fun e => LogEvent.elemLogged e.1 e.2)
  | Except.ok PromValue.otherType => PromOutcome.finished [LogEvent.typeUnrecognized]

/-- The tracker invariant: every counter present in the map has
0 ≤ FailedRequests ≤ TotalRequests. -/
def trackerInv (m : TrackerMap) : Prop :=
  ∀ t rc, m t = some rc → 0 ≤ rc.FailedRequests ∧ rc.FailedRequests ≤ rc.TotalRequests

/-- A sequence of RequestTracker.set calls, in order. -/
def runSets (m : TrackerMap) : List (TriggerRef × Bool) → TrackerMap
  | [] => m
  | op :: rest => runSets (RequestTracker.set m op.1 op.2) rest

/- Concrete fixtures used by witnesses and counterexamples. -/

def c2cexTracker : TrackerMap := fun t => if t = "t" then some ⟨10, 1⟩ else none

def c2witTracker : TrackerMap := fun t => if t = "t" then some ⟨10, 2⟩ else none

def c2cfg : CanaryConfigSpec := ⟨"t", "fn", "fo", 20, 10⟩

def c2fw : String → Int := fun k => if k = "fn" then 30 else if k = "fo" then 70 else 0

def c2env : TickEnv := ⟨Except.ok ⟨c2fw⟩, none⟩

def c3tracker : TrackerMap := fun t => if t = "t" then some ⟨10, 0⟩ else none

def c3cfg : CanaryConfigSpec := ⟨"t", "fn", "fo", 20, 10⟩

def c3fw : String → Int := fun k => if k = "fn" then 90 else if k = "fo" then 10 else 0

def c5tracker : TrackerMap := fun t => if t = "t" then some ⟨10, 0⟩ else none

def c5cfg : CanaryConfigSpec := ⟨"t", "fn", "fo", 20, 10⟩

def c5fw : String → Int := fun k => if k = "fn" then 30 else if k = "fo" then 70 else 0

def c8tracker : TrackerMap := fun t => if t = "t" then some ⟨10, 1⟩ else none

def c8cfg : CanaryConfigSpec := ⟨"t", "fn", "fo", 20, 10⟩

def c8fw : String → Int := fun k => if k = "fn" then 20 else if k = "fo" then 80 else 0

def c8envOk : TickEnv := ⟨Except.ok ⟨c8fw⟩, none⟩

def c9tracker : TrackerMap := fun t => if t = "t" then some ⟨10, 1⟩ else none

def c9cfg : CanaryConfigSpec := ⟨"t", "fn", "fo", 20, 10⟩

def c9fw : String → Int :=
  fun k => if k = "fn" then 20 else if k = "fo" then 70 else if k = "stable" then 10 else 0

def c9env : TickEnv := ⟨Except.ok ⟨c9fw⟩, none⟩

def c10m : TrackerMap := fun t => if t = "t" then some ⟨3, 1⟩ else none

theorem loopUpdates_of_stopped (cfg : CanaryConfigSpec) (tracker : TrackerMap) :
    ∀ envs : List TickEnv, loopUpdates cfg ⟨tracker, true⟩ envs = [] := by
  intro envs
  induction envs with
  | nil => rfl
  | cons e rest ih => simpa [loopUpdates, loopStep] using ih

/-- Claim C2 (amended): on a tick whose observed failure percentage is
strictly above FailureThreshold, rollback() is called (modelled from the spec
as setting FunctionN's weight to 0), quit is closed so the loop stops, no
weight update is attempted on that tick, and a stopped loop never attempts
another update. -/
theorem c2_rollback_above_threshold (tracker : TrackerMap) (cfg : CanaryConfigSpec) (env : TickEnv)
    (rc : RequestCounter) (hrc : RequestTracker.get tracker cfg.Trigger = some rc)
    (ht : ¬ rc.TotalRequests = 0)
    (hf : calculatePercentageFailure rc > (cfg.FailureThreshold : ℚ)) :
    processCanaryConfig tracker cfg env = ⟨tracker, none, true, true⟩ ∧
    (∀ fw : String → Int, rollback cfg fw cfg.FunctionN = 0) ∧
    (∀ envs : List TickEnv, loopUpdates cfg ⟨tracker, true⟩ envs = []) := by
  refine ⟨?_, ?_, loopUpdates_of_stopped cfg tracker⟩
  · unfold processCanaryConfig
    rw [hrc]
    simp [ht, hf]
  · intro fw
    simp [rollback]

theorem c2_rollback_above_threshold_witness :
    processCanaryConfig c2witTracker c2cfg c2env = ⟨c2witTracker, none, true, true⟩ := by
  have h := c2_rollback_above_threshold c2witTracker c2cfg c2env ⟨10, 2⟩ rfl
    (by norm_num) (by norm_num [calculatePercentageFailure, c2cfg])
  exact h.1

/-- Claim C2 counterexample: at a failure percentage exactly equal to
FailureThreshold (1 failure in 10 requests against threshold 10) the strict
comparison at canaryConfigMgr.go line 126 is false, so the tick neither calls
rollback nor closes quit, and instead attempts a weight update. -/
theorem c2_threshold_equality_no_rollback :
    calculatePercentageFailure ⟨10, 1⟩ = ((10 : Int) : ℚ) ∧
    (processCanaryConfig c2cexTracker c2cfg c2env).rollbackCalled = false ∧
    (processCanaryConfig c2cexTracker c2cfg c2env).quitClosed = false ∧
    (processCanaryConfig c2cexTracker c2cfg c2env).updateCall =
      some (applyWeightIncrement c2cfg c2fw) := by
  refine ⟨by norm_num [calculatePercentageFailure], ?_, ?_, ?_⟩ <;>
    · simp only [processCanaryConfig, RequestTracker.get, c2cexTracker, c2cfg, c2env]
      norm_num [calculatePercentageFailure]
      split <;> first | rfl | exact absurd (by assumption) (by decide)

/-- Claim C1 (code bug): recording on a fresh tracker does not create the
counter — RequestTracker.set builds a local RequestCounter for the missing
key but never stores it in the map (part_000 lines 37-43 contain no map
write), so a subsequent get returns nil instead of a counter with
TotalRequests = 1. -/
theorem c1_counter_not_created :
    RequestTracker.get (RequestTracker.set makeRequestTracker "t" false) "t" = none ∧
    RequestTracker.get (runSets makeRequestTracker [("t", false), ("t", true), ("t", true)]) "t" = none := by
  exact ⟨rfl, rfl⟩

/-- Claim C3 (code bug): the weight update at canaryConfigMgr.go lines
143-144 applies the raw increment with no clamping (the TODO at line 146
records the missing clamp), so from weights fn=90, fo=10 and increment 20 the
tick passes fn=110 and fo=-10 to Update, both outside [0,100]. -/
theorem c3_weight_exceeds_hundred :
    (processCanaryConfig c3tracker c3cfg ⟨Except.ok ⟨c3fw⟩, none⟩).updateCall =
      some (applyWeightIncrement c3cfg c3fw) ∧
    applyWeightIncrement c3cfg c3fw "fn" = 110 ∧
    applyWeightIncrement c3cfg c3fw "fo" = -10 ∧
    ¬ ((110 : Int) ≤ 100 ∧ (0 : Int) ≤ -10) := by
  refine ⟨?_, by decide, by decide, by decide⟩
  simp only [processCanaryConfig, RequestTracker.get, c3tracker, c3cfg]
  norm_num [calculatePercentageFailure]
  split <;> rfl

/-- Claim C4 (amended): the AddFunc handler at canaryConfigMgr.go lines 69-72
starts one loop per Added event with no registry or duplicate check, so the
number of active loops for an identity grows by exactly the number of Added
events naming it. -/
theorem c4_loop_count_adds_up (loops events : List String) (cfgId : String) :
    (processAddEvents loops events).count cfgId = loops.count cfgId + events.count cfgId := by
  induction events generalizing loops with
  | nil => simp [processAddEvents]
  | cons e rest ih =>
      have h := ih (addCanaryConfigEvent loops e)
      simp only [processAddEvents, List.foldl_cons] at h ⊢
      rw [h, addCanaryConfigEvent]
      by_cases hce : cfgId = e
      · simp [List.count_cons, hce]
        omega
      · simp [List.count_cons, hce]

theorem c4_loop_count_adds_up_witness :
    (processAddEvents ["a"] ["canary2", "canary3", "canary2"]).count "canary2" = 2 := by
  rw [c4_loop_count_adds_up]
  decide

/-- Claim C4 counterexample: two consecutive Added events for the same
configuration identity leave two active loops, not one. -/
theorem c4_duplicate_added_two_loops :
    (processAddEvents [] ["canary1", "canary1"]).count "canary1" = 2 ∧
    ¬ (processAddEvents [] ["canary1", "canary1"]).count "canary1" = 1 := by
  decide

/-- Claim C5 (code bug): when the trigger Get fails with NotFound the tick
just returns (canaryConfigMgr.go lines 135-140; the TODO at line 136 records
that close(quit) on NotFound is intended but missing), so quit stays open and
the loop state is unchanged — still running — and on a following tick with a
healthy Get the loop attempts a weight update again. -/
theorem c5_notfound_keeps_running :
    loopStep c5cfg ⟨c5tracker, false⟩ ⟨Except.error ApiError.notFound, none⟩ =
      (⟨c5tracker, false⟩, none) ∧
    (processCanaryConfig c5tracker c5cfg ⟨Except.ok ⟨c5fw⟩, none⟩).updateCall =
      some (applyWeightIncrement c5cfg c5fw) := by
  constructor
  · simp only [loopStep, processCanaryConfig, RequestTracker.get, c5cfg]
    norm_num [calculatePercentageFailure, c5tracker]
  · simp only [processCanaryConfig, RequestTracker.get, c5cfg]
    norm_num [calculatePercentageFailure, c5tracker]
    split <;> rfl

/-- Claim C6 (amended): on a failed metrics query the adapter logs the error
and then faults dereferencing the absent result value; it never completes
normally on that path and — having no return values at all — never reports
the failure, or any percentage, to the caller. -/
theorem c6_query_error_logged_and_faults (e : PromError) :
    GetFunctionFailurePercentage (Except.error e) = PromOutcome.panicked [LogEvent.errorQuerying] ∧
    ∀ logs, ¬ GetFunctionFailurePercentage (Except.error e) = PromOutcome.finished logs := by
  constructor
  · rfl
  · intro logs h
    simp [GetFunctionFailurePercentage] at h

theorem c6_query_error_logged_and_faults_witness :
    GetFunctionFailurePercentage (Except.error PromError.queryFailed) =
      PromOutcome.panicked [LogEvent.errorQuerying] ∧
    ¬ GetFunctionFailurePercentage (Except.error PromError.queryFailed) =
      PromOutcome.finished [] :=
  ⟨(c6_query_error_logged_and_faults PromError.queryFailed).1,
   (c6_query_error_logged_and_faults PromError.queryFailed).2 []⟩

/-- Claim C6 counterexample: a failed query is not reported to the caller as
an error — GetFunctionFailurePercentage has no return values, and on this
input it logs the failure and then faults on the nil query result. -/
theorem c6_query_error_not_returned :
    GetFunctionFailurePercentage (Except.error PromError.queryFailed) =
      PromOutcome.panicked [LogEvent.errorQuerying] := rfl

/-- Claim C7: on a tick with no request data for the trigger — no counter in
the tracker, or a counter with zero total — processCanaryConfig returns
immediately (canaryConfigMgr.go lines 117-121): the tracker is unchanged, no
weight mutation is attempted, quit is not closed and rollback is not called,
whatever the trigger API would have answered. -/
theorem c7_no_data_no_action (tracker : TrackerMap) (cfg : CanaryConfigSpec) (env : TickEnv)
    (h : RequestTracker.get tracker cfg.Trigger = none ∨
         ∃ rc, RequestTracker.get tracker cfg.Trigger = some rc ∧ rc.TotalRequests = 0) :
    processCanaryConfig tracker cfg env = ⟨tracker, none, false, false⟩ := by
  unfold processCanaryConfig
  rcases h with h | ⟨rc, hrc, ht⟩
  · rw [h]
  · rw [hrc]
    simp [ht]

theorem c7_no_data_no_action_witness :
    processCanaryConfig makeRequestTracker ⟨"t", "fn", "fo", 20, 10⟩
      ⟨Except.error ApiError.notFound, none⟩ = ⟨makeRequestTracker, none, false, false⟩ :=
  c7_no_data_no_action makeRequestTracker ⟨"t", "fn", "fo", 20, 10⟩
    ⟨Except.error ApiError.notFound, none⟩ (Or.inl rfl)

theorem processCanaryConfig_updateFailed (tracker : TrackerMap) (cfg : CanaryConfigSpec)
    (env : TickEnv) (rc : RequestCounter) (tr : HTTPTrigger) (e : ApiError)
    (hrc : RequestTracker.get tracker cfg.Trigger = some rc)
    (ht : ¬ rc.TotalRequests = 0)
    (hf : ¬ calculatePercentageFailure rc > (cfg.FailureThreshold : ℚ))
    (hg : env.getResult = Except.ok tr)
    (hu : env.updateResult = some e) :
    processCanaryConfig tracker cfg env =
      ⟨tracker, some (applyWeightIncrement cfg tr.FunctionWeights), false, false⟩ := by
  unfold processCanaryConfig
  rw [hrc, hg, hu]
  simp [ht, hf]

theorem processCanaryConfig_updateOk (tracker : TrackerMap) (cfg : CanaryConfigSpec)
    (env : TickEnv) (rc : RequestCounter) (tr : HTTPTrigger)
    (hrc : RequestTracker.get tracker cfg.Trigger = some rc)
    (ht : ¬ rc.TotalRequests = 0)
    (hf : ¬ calculatePercentageFailure rc > (cfg.FailureThreshold : ℚ))
    (hg : env.getResult = Except.ok tr)
    (hu : env.updateResult = none) :
    processCanaryConfig tracker cfg env =
      if applyWeightIncrement cfg tr.FunctionWeights cfg.FunctionN ≥ 100 then
        ⟨RequestTracker.reset tracker cfg.Trigger,
          some (applyWeightIncrement cfg tr.FunctionWeights), true, false⟩
      else
        ⟨RequestTracker.reset tracker cfg.Trigger,
          some (applyWeightIncrement cfg tr.FunctionWeights), false, false⟩ := by
  unfold processCanaryConfig
  rw [hrc, hg, hu]
  simp [ht, hf]

/-- Claim C8: within one tick that reaches the mutation step, the tracker's
counters for the trigger are reset exactly when the Update succeeds: on
success the tick's tracker equals the reset tracker (counters zeroed for the
next window), and on Update failure the tick returns with the tracker and the
rollout state unchanged (canaryConfigMgr.go lines 149-161). -/
theorem c8_reset_iff_update_success (tracker : TrackerMap) (cfg : CanaryConfigSpec) (env : TickEnv)
    (rc : RequestCounter) (tr : HTTPTrigger)
    (hrc : RequestTracker.get tracker cfg.Trigger = some rc)
    (ht : ¬ rc.TotalRequests = 0)
    (hf : ¬ calculatePercentageFailure rc > (cfg.FailureThreshold : ℚ))
    (hg : env.getResult = Except.ok tr) :
    ((processCanaryConfig tracker cfg env).tracker cfg.Trigger = some ⟨0, 0⟩ ↔
      env.updateResult = none) ∧
    (env.updateResult = none →
      (processCanaryConfig tracker cfg env).tracker = RequestTracker.reset tracker cfg.Trigger) ∧
    (∀ e, env.updateResult = some e →
      processCanaryConfig tracker cfg env =
        ⟨tracker, some (applyWeightIncrement cfg tr.FunctionWeights), false, false⟩) := by
  have hrc2 : tracker cfg.Trigger = some rc := hrc
  cases hu : env.updateResult with
  | none =>
      rw [processCanaryConfig_updateOk tracker cfg env rc tr hrc ht hf hg hu]
      refine ⟨?_, fun _ => ?_, fun e he => absurd he (by simp)⟩
      · split <;> simp [RequestTracker.reset]
      · split <;> rfl
  | some e =>
      rw [processCanaryConfig_updateFailed tracker cfg env rc tr e hrc ht hf hg hu]
      refine ⟨?_, fun h => absurd h (by simp), fun e2 he2 => rfl⟩
      show tracker cfg.Trigger = some ⟨0, 0⟩ ↔ some e = none
      rw [hrc2]
      constructor
      · intro h
        have h0 : rc.TotalRequests = 0 := by rw [Option.some_inj.mp h]
        exact absurd h0 ht
      · intro h
        exact absurd h (by simp)

theorem c8_reset_iff_update_success_witness :
    (processCanaryConfig c8tracker c8cfg c8envOk).tracker "t" = some ⟨0, 0⟩ ∧
    (processCanaryConfig c8tracker c8cfg c8envOk).tracker = RequestTracker.reset c8tracker "t" := by
  have h := c8_reset_iff_update_success c8tracker c8cfg c8envOk ⟨10, 1⟩ ⟨c8fw⟩ rfl (by norm_num)
    (by norm_num [calculatePercentageFailure, c8cfg]) rfl
  exact ⟨h.1.mpr rfl, h.2.1 rfl⟩

theorem sum_mapAddAt (m : String → Int) (k : String) (d : Int) (S : Finset String) (hk : k ∈ S) :
    Finset.sum S (mapAddAt m k d) = Finset.sum S m + d := by
  have h : ∀ j ∈ S, mapAddAt m k d j = m j + (if j = k then d else 0) := by
    intro j hj
    by_cases hjk : j = k
    · subst hjk; simp [mapAddAt]
    · simp [mapAddAt, hjk]
  rw [Finset.sum_congr rfl h, Finset.sum_add_distrib]
  congr 1
  rw [Finset.sum_ite_eq' S k fun _ => d]
  simp [hk]

/-- Claim C9: on an increment tick the weight map handed to Update differs
from the trigger's current map only at FunctionN (raised by WeightIncrement)
and FunctionNminus1 (lowered by WeightIncrement); every other function's
weight is unchanged, and the sum of the weights over any key set containing
both functions is preserved. -/
theorem c9_increment_frame (tracker : TrackerMap) (cfg : CanaryConfigSpec) (env : TickEnv)
    (rc : RequestCounter) (tr : HTTPTrigger)
    (hne : ¬ cfg.FunctionN = cfg.FunctionNminus1)
    (hrc : RequestTracker.get tracker cfg.Trigger = some rc)
    (ht : ¬ rc.TotalRequests = 0)
    (hf : ¬ calculatePercentageFailure rc > (cfg.FailureThreshold : ℚ))
    (hg : env.getResult = Except.ok tr) :
    (processCanaryConfig tracker cfg env).updateCall =
      some (applyWeightIncrement cfg tr.FunctionWeights) ∧
    applyWeightIncrement cfg tr.FunctionWeights cfg.FunctionN =
      tr.FunctionWeights cfg.FunctionN + cfg.WeightIncrement ∧
    applyWeightIncrement cfg tr.FunctionWeights cfg.FunctionNminus1 =
      tr.FunctionWeights cfg.FunctionNminus1 - cfg.WeightIncrement ∧
    (∀ k, ¬ k = cfg.FunctionN → ¬ k = cfg.FunctionNminus1 →
      applyWeightIncrement cfg tr.FunctionWeights k = tr.FunctionWeights k) ∧
    (∀ S : Finset String, cfg.FunctionN ∈ S → cfg.FunctionNminus1 ∈ S →
      Finset.sum S (applyWeightIncrement cfg tr.FunctionWeights) =
        Finset.sum S tr.FunctionWeights) := by
  have hne2 : ¬ cfg.FunctionNminus1 = cfg.FunctionN := fun h => hne h.symm
  refine ⟨?_, ?_, ?_, ?_, ?_⟩
  · cases hu : env.updateResult with
    | none =>
        rw [processCanaryConfig_updateOk tracker cfg env rc tr hrc ht hf hg hu]
        split <;> rfl
    | some e =>
        rw [processCanaryConfig_updateFailed tracker cfg env rc tr e hrc ht hf hg hu]
  · simp [applyWeightIncrement, mapAddAt, hne]
  · simp [applyWeightIncrement, mapAddAt, hne2, sub_eq_add_neg]
  · intro k hk1 hk2
    simp [applyWeightIncrement, mapAddAt, hk1, hk2]
  · intro S hN hNm1
    unfold applyWeightIncrement
    rw [sum_mapAddAt _ _ _ S hNm1, sum_mapAddAt _ _ _ S hN]
    ring

theorem c9_increment_frame_witness :
    (processCanaryConfig c9tracker c9cfg c9env).updateCall = some (applyWeightIncrement c9cfg c9fw) ∧
    applyWeightIncrement c9cfg c9fw "fn" = c9fw "fn" + 20 ∧
    applyWeightIncrement c9cfg c9fw "fo" = c9fw "fo" - 20 ∧
    applyWeightIncrement c9cfg c9fw "stable" = c9fw "stable" ∧
    Finset.sum {"fn", "fo", "stable"} (applyWeightIncrement c9cfg c9fw) =
      Finset.sum {"fn", "fo", "stable"} c9fw := by
  have h := c9_increment_frame c9tracker c9cfg c9env ⟨10, 1⟩ ⟨c9fw⟩ (by decide) rfl (by norm_num)
    (by norm_num [calculatePercentageFailure, c9cfg]) rfl
  exact ⟨h.1, h.2.1, h.2.2.1, h.2.2.2.1 "stable" (by decide) (by decide),
    h.2.2.2.2 {"fn", "fo", "stable"} (by decide) (by decide)⟩

theorem set_preserves_trackerInv (m : TrackerMap) (t0 : TriggerRef) (b : Bool)
    (hm : trackerInv m) : trackerInv (RequestTracker.set m t0 b) := by
  intro u rc hu
  unfold RequestTracker.set at hu
  cases hmt : m t0 with
  | none =>
      rw [hmt] at hu
      exact hm u rc hu
  | some v =>
      rw [hmt] at hu
      simp only at hu
      have hv := hm t0 v hmt
      by_cases hut : u = t0
      · rw [if_pos hut] at hu
        cases b with
        | false =>
            simp only [Option.some_inj] at hu
            subst hu
            simp only [if_neg (by simp : ¬ (false = true))]
            omega
        | true =>
            simp only [Option.some_inj] at hu
            subst hu
            simp only [eq_self_iff_true, if_true]
            omega
      · rw [if_neg hut] at hu
        exact hm u rc hu

/-- Claim C10 (amended): every counter reachable by set calls keeps
0 ≤ FailedRequests ≤ TotalRequests, and a set call on a trigger whose counter
exists increments TotalRequests by exactly 1 and FailedRequests by 1 exactly
when failed=true, never decrementing either field; but a set call on a
trigger with no counter leaves the tracker unchanged (the freshly created
counter is dropped), so it does not increment anything. -/
theorem c10_tracker_invariant (m : TrackerMap) (ops : List (TriggerRef × Bool))
    (hm : trackerInv m) :
    trackerInv (runSets m ops) ∧
    (∀ t rc, m t = some rc →
      RequestTracker.set m t true t = some ⟨rc.TotalRequests + 1, rc.FailedRequests + 1⟩ ∧
      RequestTracker.set m t false t = some ⟨rc.TotalRequests + 1, rc.FailedRequests⟩) ∧
    (∀ t b, m t = none → RequestTracker.set m t b = m) := by
  refine ⟨?_, ?_, ?_⟩
  · induction ops generalizing m with
    | nil => exact hm
    | cons op rest ih => exact ih (RequestTracker.set m op.1 op.2) (set_preserves_trackerInv m op.1 op.2 hm)
  · intro t rc hrc
    constructor
    · unfold RequestTracker.set
      rw [hrc]
      simp
    · unfold RequestTracker.set
      rw [hrc]
      simp
  · intro t b hn
    unfold RequestTracker.set
    rw [hn]

/-- Claim C10 counterexample: a set call for a trigger with no existing
counter is lost — the tracker map is unchanged, so TotalRequests is not
incremented (no counter with TotalRequests = 1 appears). -/
theorem c10_set_lost_on_missing_counter :
    RequestTracker.set makeRequestTracker "t" true = makeRequestTracker ∧
    RequestTracker.set makeRequestTracker "t" true "t" = none := ⟨rfl, rfl⟩

theorem c10_tracker_invariant_witness :
    trackerInv (runSets c10m [("t", true), ("t", false)]) ∧
    RequestTracker.set c10m "t" true "t" = some ⟨4, 2⟩ := by
  have hminv : trackerInv c10m := by
    intro t rc hrc
    by_cases ht : t = "t"
    · rw [c10m, if_pos ht, Option.some_inj] at hrc
      subst hrc
      exact ⟨by decide, by decide⟩
    · rw [c10m, if_neg ht] at hrc
      exact absurd hrc (by simp)
  have h := c10_tracker_invariant c10m [("t", true), ("t", false)] hminv
  refine ⟨h.1, ?_⟩
  have h2 := (h.2.1 "t" ⟨3, 1⟩ (by rw [c10m, if_pos rfl])).1
  simpa using h2

end Canary
